import Mathlib

/-!
Shallow embedding of the Leaflet.FreeDraw 0.1.14 core
(src/ajax/libs/leaflet.freedraw/0.1.14/leaflet.freedraw.js).

The editor state (`L.FreeDraw` instance together with the pieces of the host
map it mutates) is a record, and each method of the source file that the
verified properties touch is a function on that record.  External
collaborators are modelled as follows:

* the map's screen/geo projection (`containerPointToLatLng`,
  `layerPointToLatLng`) is a function parameter where a method uses it;
* the renderer's `polygon._parts[0]` (projection, clipping, simplification of
  the ring by Leaflet itself) is taken to be the ring that was handed to
  `L.polygon`, i.e. an identity rendering - the renderer is an external
  collaborator out of scope;
* observable side effects that the properties talk about (invocations of
  `notifyBoundaries`' callback, `destroyPolygon` calls, `polygon.redraw()`,
  recreation of the d3 tracer layer) are appended to an event log.
-/

namespace FD

/-- Immutable latitude/longitude pair (an `L.LatLng`), produced by the map
collaborator's projection.  Coordinates are integers because the embedding
never computes with them. -/
structure LatLng where
  lat : Int
  lng : Int
deriving DecidableEq, Repr

/-- One draggable vertex handle: the `L.marker` created by `attachEdges`,
carrying the owning polygon's leaflet id (`edge._polygonId`, standing also for
the `edge._polygon` reference, which is in bijection with it), the vertex
index (`edge._index`) and the current geo position (`edge._latlng`). -/
structure Edge where
  polygonId : Nat
  index : Nat
  latlng : LatLng
deriving DecidableEq, Repr

/-- A polygon on the map: its leaflet id and its ring of geo points
(`polygon._latlngs`). -/
structure Polygon where
  id : Nat
  latlngs : List LatLng
deriving DecidableEq, Repr

/-- Observable side effects of the editor, recorded in order. -/
inductive Event where
  /-- `options.markersFn(latLngs, ...)` was invoked with these groups. -/
  | notify (groups : List (List LatLng))
  /-- `destroyPolygon` was invoked for the polygon with this id. -/
  | destroyCall (pid : Nat)
  /-- `polygon.redraw()` was invoked on the polygon with this id. -/
  | redraw (pid : Nat)
  /-- `destroyD3().createD3()`: the transient tracer layer was recreated. -/
  | recreateTracer
deriving DecidableEq, Repr

/-- The `L.FreeDraw.Options` prototype; default field values are the
prototype's defaults. -/
structure Options where
  multiplePolygons : Bool := true
  /-- `options.hullAlgorithm`: `none` for the falsy values `false`/`undefined`
  (hull reduction disabled), `some m` for the resolved method name `m`. -/
  hullAlgorithm : Option String := none
  boundariesAfterEdit : Bool := false
  createExitMode : Bool := true
  svgClassName : String := "tracer"
  smoothFactor : Int := 5
  iconClassName : String := "polygon-elbow"
deriving DecidableEq, Repr

/-- The `options.hullAlgorithms` lookup table mapping a public algorithm name
to the `L.FreeDraw.Hull` method implementing it. -/
def hullAlgorithms : List (String × String) :=
  [("brian3kb/graham_scan_js", "brian3kbGrahamScan"),
   ("Wildhoney/ConcaveHull", "wildhoneyConcaveHull")]

/-- `Options.setHullAlgorithm`: a truthy name that is not a key of
`hullAlgorithms` returns early; otherwise `hullAlgorithm` is assigned
`hullAlgorithms[algorithm]` (which is `undefined`, i.e. `none`, for a falsy
argument such as the empty string). -/
def setHullAlgorithm (o : Options) (algorithm : String) : Options :=
  if algorithm ≠ "" ∧ (hullAlgorithms.lookup algorithm).isNone = true then o
  else { o with hullAlgorithm := hullAlgorithms.lookup algorithm }

/-- The mutable state of one `L.FreeDraw` instance together with the pieces of
the host map it drives.  `hasMap` is whether `this.map` is set; `nextId`
models leaflet's unique id counter; `dragging`, `touchZoom`,
`doubleClickZoom`, `scrollWheelZoom` are the map's four input permissions
(`true` = enabled); `mapClasses` is `this.map._container.classList`;
`markerLayer` is the content of the dedicated marker layer.  Default field
values are the prototype defaults. -/
structure FreeDraw where
  hasMap : Bool := false
  creating : Bool := false
  latLngs : List LatLng := []
  mode : Nat := 1
  boundaryUpdateRequired : Bool := false
  edges : List Edge := []
  polygons : List Polygon := []
  nextId : Nat := 1
  mapClasses : List String := []
  dragging : Bool := true
  touchZoom : Bool := true
  doubleClickZoom : Bool := true
  scrollWheelZoom : Bool := true
  markerLayer : List LatLng := []
  options : Options := {}
  log : List Event := []
deriving DecidableEq, Repr

/-- `L.FreeDraw.MODES.VIEW`. -/
def MODES_VIEW : Nat := 1

/-- `L.FreeDraw.MODES.CREATE`. -/
def MODES_CREATE : Nat := 2

/-- `L.FreeDraw.MODES.EDIT`. -/
def MODES_EDIT : Nat := 4

/-- `L.FreeDraw.MODES.DELETE`. -/
def MODES_DELETE : Nat := 8

/-- `classList.remove`: drops the class from the token list. -/
def classListRemove (l : List String) (c : String) : List String :=
  l.filter (fun x => x ≠ c)

/-- `classList.add`: appends the class unless it is already present. -/
def classListAdd (l : List String) (c : String) : List String :=
  if c ∈ l then l else l ++ [c]

/-- The loop body of `notifyBoundaries`: walking `this.edges` in order with
the running `last` polygon id and the current bucket, `index` is incremented
(a new bucket is opened) exactly when the id differs from `last`, and the
edge's `_latlng` is pushed onto bucket `index`. -/
def groupEdgesGo (curId : Nat) (curRun : List LatLng) : List Edge → List (List LatLng)
  | [] => [curRun]
  | e :: rest =>
    if e.polygonId = curId then groupEdgesGo curId (curRun ++ [e.latlng]) rest
    else curRun :: groupEdgesGo e.polygonId [e.latlng] rest

/-- The `latLngs` array built by `notifyBoundaries` from `this.edges`
(initially `last = null`, `index = -1`, so the first edge always opens a
bucket). -/
def groupEdges : List Edge → List (List LatLng)
  | [] => []
  | e :: rest => groupEdgesGo e.polygonId [e.latlng] rest

/-- `notifyBoundaries`: builds the grouped latitudes/longitudes from
`this.edges` and invokes `options.markersFn` with them (recorded as a
`notify` event; the callback itself is an external collaborator). -/
def notifyBoundaries (st : FreeDraw) : FreeDraw :=
  { st with log := st.log ++ [Event.notify (groupEdges st.edges)] }

/-- `destroyPolygon(polygon)`: removes the shape's visual container, filters
`this.edges` down to the edges of other polygons (physically removing the icon
of each matching edge), and then calls `notifyBoundaries`.  The invocation
itself is recorded as a `destroyCall` event. -/
def destroyPolygon (st : FreeDraw) (pid : Nat) : FreeDraw :=
  let st := { st with
    log := st.log ++ [Event.destroyCall pid],
    polygons := st.polygons.filter (fun p => p.id ≠ pid),
    edges := st.edges.filter (fun e => e.polygonId ≠ pid) }
  notifyBoundaries st

/-- The edges whose `_icon.remove()` a call to `destroyPolygon` on `pid`
executes: exactly the edges of `this.edges` owned by that polygon. -/
def removedHandles (st : FreeDraw) (pid : Nat) : List Edge :=
  st.edges.filter (fun e => e.polygonId = pid)

/-- `clearPolygons`: `this.edges.forEach(edge => destroyPolygon(edge._polygon))`
followed by one `notifyBoundaries`.  The `forEach` runs over the array held by
`this.edges` at entry, because `destroyPolygon` replaces `this.edges` with a
fresh filtered array rather than mutating it in place. -/
def clearPolygons (st : FreeDraw) : FreeDraw :=
  notifyBoundaries (st.edges.foldl (fun s e => destroyPolygon s e.polygonId) st)

/-- The loop of `attachEdges`: one handle per rendered vertex, with `_index`
the running position (`parts.forEach(function (point, index) ...)`). -/
def attachIdx (pid : Nat) : Nat → List LatLng → List Edge
  | _, [] => []
  | n, p :: ps => { polygonId := pid, index := n, latlng := p } :: attachIdx pid (n + 1) ps

/-- `createPolygon(latLngs)`: recreates the tracer layer, builds a new
`L.polygon` from the given ring, adds it to the map, attaches one edge handle
per rendered vertex (`attachEdges`; the renderer's `_parts[0]` is modelled as
the ring itself), rebuilds `polygon._latlngs` from those parts (again the ring
itself under the identity rendering), and notifies the boundaries. -/
def createPolygon (st : FreeDraw) (latLngs : List LatLng) : FreeDraw × Polygon :=
  let st := { st with log := st.log ++ [Event.recreateTracer] }
  let poly : Polygon := { id := st.nextId, latlngs := latLngs }
  let st := { st with
    nextId := st.nextId + 1,
    polygons := st.polygons ++ [poly],
    edges := st.edges ++ attachIdx poly.id 0 latLngs }
  (notifyBoundaries st, poly)

/-- The inner `defineClasses` function of `setMode`: removes the four mode
indicator classes from the container's class list and re-adds one per mode
bit set, in the source's order. -/
def defineClasses (mode : Nat) (classList : List String) : List String :=
  let cl := classListRemove classList "mode-create"
  let cl := classListRemove cl "mode-edit"
  let cl := classListRemove cl "mode-delete"
  let cl := classListRemove cl "mode-view"
  let cl := if mode &&& MODES_CREATE ≠ 0 then classListAdd cl "mode-create" else cl
  let cl := if mode &&& MODES_EDIT ≠ 0 then classListAdd cl "mode-edit" else cl
  let cl := if mode &&& MODES_DELETE ≠ 0 then classListAdd cl "mode-delete" else cl
  if mode &&& MODES_VIEW ≠ 0 then classListAdd cl "mode-view" else cl

/-- `setMode(mode)`: stores the mode; if no map is attached yet, stops there.
Otherwise fires a pending deferred boundary notification when the new mode
has no EDIT bit, switches the four input permissions to `enable` exactly when
the CREATE bit is absent, and rewrites the mode indicator classes on the map
container through `defineClasses`. -/
def setMode (st : FreeDraw) (mode : Nat) : FreeDraw :=
  let isCreate : Bool := mode &&& MODES_CREATE != 0
  let st := { st with mode := mode }
  if st.hasMap = false then st
  else
    let st :=
      if st.boundaryUpdateRequired = true ∧ st.mode &&& MODES_EDIT = 0 then
        { notifyBoundaries st with boundaryUpdateRequired := false }
      else st
    let enabled := !isCreate
    let st := { st with
      dragging := enabled, touchZoom := enabled,
      doubleClickZoom := enabled, scrollWheelZoom := enabled }
    { st with mapClasses := defineClasses mode st.mapClasses }

/-- `_createMouseUp`: ends the trace; a trace of at most 2 points is dropped.
Otherwise the configured hull method (dispatched through `this.hull`, whose
algorithms live in external libraries and are therefore the `hullFn`
parameter) may reduce the traced points, the first traced point is pushed
again to close the ring, the polygon is created from the hull result if one
was computed and from the closed trace otherwise, the accumulator is reset,
a delete-on-click handler is registered on the polygon, and when
`createExitMode` is set the CREATE bit is xor-ed out of the mode. -/
def createMouseUp (hullFn : String → List LatLng → List LatLng) (st : FreeDraw) : FreeDraw :=
  let st := { st with creating := false }
  if st.latLngs.length ≤ 2 then st
  else
    let hullLatLngs : Option (List LatLng) :=
      st.options.hullAlgorithm.map (fun alg => hullFn alg st.latLngs)
    let closed :=
      match st.latLngs with
      | [] => []
      | p :: _ => st.latLngs ++ [p]
    let st := { st with latLngs := closed }
    let pts := hullLatLngs.getD st.latLngs
    let st := (createPolygon st pts).1
    let st := { st with latLngs := [] }
    if st.options.createExitMode = true then setMode st (st.mode ^^^ MODES_CREATE) else st

/-- `updatePolygonEdge(edge, posX, posY)`: re-projects the screen position
through the map (`proj` models `containerPointToLatLng`), stores it in the
grabbed handle (identified by its `(polygonId, index)` key, standing for the
object reference), gathers all edges of the same polygon in their order in
`this.edges`, replaces the polygon's latLngs with their current positions and
redraws the polygon once. -/
def updatePolygonEdge (proj : Int → Int → LatLng) (st : FreeDraw)
    (pid idx : Nat) (posX posY : Int) : FreeDraw :=
  let updatedLatLng := proj posX posY
  let edges := st.edges.map (fun e =>
    if e.polygonId = pid ∧ e.index = idx then { e with latlng := updatedLatLng } else e)
  let updatedLatLngs := (edges.filter (fun e => e.polygonId = pid)).map Edge.latlng
  { st with
    edges := edges,
    polygons := st.polygons.map (fun p =>
      if p.id = pid then { p with latlngs := updatedLatLngs } else p),
    log := st.log ++ [Event.redraw pid] }

/-- An element of the `markers` array handed to `setMarkers` by the user's
callback: either a genuine `L.LatLng` or any other value. -/
inductive MarkerArg where
  | latLng (p : LatLng)
  | notLatLng (tag : Nat)
deriving DecidableEq, Repr

/-- Whether the value is an `L.LatLng` instance. -/
def MarkerArg.isLatLng : MarkerArg → Bool
  | .latLng _ => true
  | .notLatLng _ => false

/-- The optional second argument of `setMarkers`: either a genuine
`L.DivIcon` or any other value. -/
inductive IconArg where
  | divIcon (tag : Nat)
  | notDivIcon (tag : Nat)
deriving DecidableEq, Repr

/-- Whether the value is an `L.DivIcon` instance. -/
def IconArg.isDivIcon : IconArg → Bool
  | .divIcon _ => true
  | .notDivIcon _ => false

/-- The plotting loop of `setMarkers`: adds each marker to the layer in turn
and throws on the first entry that is not an `L.LatLng`, returning the layer
content reached at that point together with the error. -/
def addMarkersLoop (layer : List LatLng) : List MarkerArg → List LatLng × Option String
  | [] => (layer, none)
  | .latLng p :: rest => addMarkersLoop (layer ++ [p]) rest
  | .notLatLng _ :: _ => (layer, some "Supplied markers must be instances of L.LatLng")

/-- The part of `setMarkers` after the icon check: removes the old marker
layer, installs a fresh empty one, returns if the marker list is missing or
empty, and otherwise runs the plotting loop.  The second component is the
exception thrown, if any; the first is the state when the call returns or the
throw unwinds. -/
def setMarkersReset (st : FreeDraw) (markers : Option (List MarkerArg)) :
    FreeDraw × Option String :=
  let st := { st with markerLayer := [] }
  match markers with
  | none => (st, none)
  | some ms =>
    if ms.isEmpty = true then (st, none)
    else
      let r := addMarkersLoop [] ms
      ({ st with markerLayer := r.1 }, r.2)

/-- `setMarkers(markers, divIcon)`: throws before touching any state when a
second argument is supplied that is not an `L.DivIcon`; otherwise resets the
marker layer and plots the markers (the icon itself only styles the plotted
markers and is not part of the tracked state). -/
def setMarkers (st : FreeDraw) (markers : Option (List MarkerArg))
    (divIcon : Option IconArg) : FreeDraw × Option String :=
  match divIcon with
  | some i =>
    if i.isDivIcon = true then setMarkersReset st markers
    else (st, some "Second argument must be an instance of L.DivIcon")
  | none => setMarkersReset st markers

/-- Edges of a list of blocks, one block per shape: block `(pid, ps)`
contributes one handle per point of `ps`, indexed from 0, exactly as
`attachEdges` produces them.  Used to describe handle collections in which
every shape's handles are contiguous. -/
def blockEdges (bs : List (Nat × List LatLng)) : List Edge :=
  (bs.map (fun b => attachIdx b.1 0 b.2)).flatten

/-- Number of `notify` events in a log. -/
def countNotify (log : List Event) : Nat :=
  (log.filter (fun ev => match ev with | .notify _ => true | _ => false)).length

/-- Number of `destroyCall` events in a log. -/
def countDestroy (log : List Event) : Nat :=
  (log.filter (fun ev => match ev with | .destroyCall _ => true | _ => false)).length

/-- Number of `destroyCall` events for one polygon id in a log. -/
def countDestroyOf (pid : Nat) (log : List Event) : Nat :=
  (log.filter (fun ev => ev = Event.destroyCall pid)).length

/-! Helper lemmas. -/

/-- `setMode` never changes the set of polygons on the map. -/
theorem setMode_polygons (st : FreeDraw) (m : Nat) :
    (setMode st m).polygons = st.polygons := by
  simp only [setMode]
  repeat' split
  all_goals rfl

/-- The edges remaining after `destroyPolygon` are those of the other
polygons. -/
theorem destroyPolygon_edges (st : FreeDraw) (pid : Nat) :
    (destroyPolygon st pid).edges = st.edges.filter (fun e => e.polygonId ≠ pid) := rfl

/-! Claim theorems. -/

/-- C6: a trace that accumulated fewer than 3 points is silently discarded by
`_createMouseUp`: the entire state change is `creating := false`, so no shape
is created, no edge handles are added, no boundary notification fires, and no
error is raised (the function is total). -/
theorem C6_short_trace_discarded (hullFn : String → List LatLng → List LatLng)
    (st : FreeDraw) (h : st.latLngs.length ≤ 2) :
    createMouseUp hullFn st = { st with creating := false } := by
  unfold createMouseUp
  simp [h]

/-- Witness for C6 at a concrete two-point trace. -/
theorem C6_short_trace_discarded_witness :
    (({ latLngs := [⟨0, 0⟩, ⟨1, 1⟩] } : FreeDraw)).latLngs.length ≤ 2 ∧
    createMouseUp (fun _ l => l) ({ latLngs := [⟨0, 0⟩, ⟨1, 1⟩] } : FreeDraw)
      = { ({ latLngs := [⟨0, 0⟩, ⟨1, 1⟩] } : FreeDraw) with creating := false } :=
  ⟨by decide, C6_short_trace_discarded (fun _ l => l) _ (by decide)⟩

/-- C1: with no hull algorithm configured, finalizing a trace of at least 3
points creates exactly one new polygon whose ring is the traced sequence with
its first point appended once more, so its vertex count is the input length
plus one. -/
theorem C1_finalization_closure (hullFn : String → List LatLng → List LatLng)
    (st : FreeDraw) (h1 : st.options.hullAlgorithm = none)
    (h2 : 3 ≤ st.latLngs.length) :
    (createMouseUp hullFn st).polygons
      = st.polygons ++ [{ id := st.nextId, latlngs := st.latLngs ++ st.latLngs.take 1 }] ∧
    (st.latLngs ++ st.latLngs.take 1).length = st.latLngs.length + 1 := by
  obtain ⟨p, ps, hl⟩ : ∃ p ps, st.latLngs = p :: ps := by
    cases hll : st.latLngs with
    | nil => rw [hll] at h2; simp at h2
    | cons p ps => exact ⟨p, ps, rfl⟩
  rw [hl] at h2
  have hcond : ¬((p :: ps).length ≤ 2) := by simp at h2 ⊢; omega
  constructor
  · unfold createMouseUp
    simp only [hl, h1, Option.map_none']
    rw [if_neg (by simpa using hcond)]
    simp only [Option.getD_none]
    split
    · rw [setMode_polygons]
      simp [createPolygon, notifyBoundaries, List.take]
    · simp [createPolygon, notifyBoundaries, List.take]
  · simp [hl, List.take]

/-- Witness for C1 at a concrete three-point trace. -/
theorem C1_finalization_closure_witness :
    (({ latLngs := [⟨0, 0⟩, ⟨0, 4⟩, ⟨4, 4⟩] } : FreeDraw)).options.hullAlgorithm = none ∧
    3 ≤ (({ latLngs := [⟨0, 0⟩, ⟨0, 4⟩, ⟨4, 4⟩] } : FreeDraw)).latLngs.length ∧
    ((createMouseUp (fun _ l => l) ({ latLngs := [⟨0, 0⟩, ⟨0, 4⟩, ⟨4, 4⟩] } : FreeDraw)).polygons
        = ({ latLngs := [⟨0, 0⟩, ⟨0, 4⟩, ⟨4, 4⟩] } : FreeDraw).polygons
          ++ [{ id := ({ latLngs := [⟨0, 0⟩, ⟨0, 4⟩, ⟨4, 4⟩] } : FreeDraw).nextId,
                latlngs := ({ latLngs := [⟨0, 0⟩, ⟨0, 4⟩, ⟨4, 4⟩] } : FreeDraw).latLngs
                  ++ ({ latLngs := [⟨0, 0⟩, ⟨0, 4⟩, ⟨4, 4⟩] } : FreeDraw).latLngs.take 1 }] ∧
      (({ latLngs := [⟨0, 0⟩, ⟨0, 4⟩, ⟨4, 4⟩] } : FreeDraw).latLngs
          ++ ({ latLngs := [⟨0, 0⟩, ⟨0, 4⟩, ⟨4, 4⟩] } : FreeDraw).latLngs.take 1).length
        = ({ latLngs := [⟨0, 0⟩, ⟨0, 4⟩, ⟨4, 4⟩] } : FreeDraw).latLngs.length + 1) :=
  ⟨rfl, by decide, C1_finalization_closure (fun _ l => l) _ rfl (by decide)⟩

/-- C8 counterexample: setting an unrecognized hull-algorithm name does not
leave hull reduction disabled when an algorithm was configured before - the
early return keeps the previously selected algorithm, so reduction stays
enabled. -/
theorem C8_counterexample :
    setHullAlgorithm (setHullAlgorithm {} "brian3kb/graham_scan_js") "not-a-hull"
        = setHullAlgorithm {} "brian3kb/graham_scan_js" ∧
    (setHullAlgorithm (setHullAlgorithm {} "brian3kb/graham_scan_js") "not-a-hull").hullAlgorithm
        = some "brian3kbGrahamScan" ∧
    ¬((setHullAlgorithm (setHullAlgorithm {} "brian3kb/graham_scan_js") "not-a-hull").hullAlgorithm
        = none) := by
  decide

/-- C8 amended: setting an unrecognized non-empty hull-algorithm name never
throws (the setter is total) and leaves the whole configuration - in
particular the `hullAlgorithm` field - unchanged; from the default
configuration hull reduction therefore stays disabled, but a previously
selected algorithm is kept, not cleared. -/
theorem C8_unrecognized_name_keeps_config (o : Options) (s : String)
    (h1 : s ≠ "") (h2 : hullAlgorithms.lookup s = none) :
    setHullAlgorithm o s = o ∧
    (setHullAlgorithm o s).hullAlgorithm = o.hullAlgorithm := by
  have : setHullAlgorithm o s = o := by
    unfold setHullAlgorithm
    rw [if_pos ⟨h1, by simp [h2]⟩]
  exact ⟨this, by rw [this]⟩

/-- Witness for the amended C8 at a concrete unrecognized name. -/
theorem C8_unrecognized_name_keeps_config_witness :
    ("bogus" ≠ "") ∧ hullAlgorithms.lookup "bogus" = none ∧
    (setHullAlgorithm {} "bogus" = ({} : Options) ∧
      (setHullAlgorithm {} "bogus").hullAlgorithm = ({} : Options).hullAlgorithm) :=
  ⟨by decide, by decide, C8_unrecognized_name_keeps_config {} "bogus" (by decide) (by decide)⟩

/-- C5: the first `destroyPolygon` on a shape that has handles physically
removes every handle owned by that shape (and only those), and the removal is
observable (`removedHandles` nonempty, the spec's handles-removed = true);
an immediately repeated call removes nothing (`removedHandles` empty, the
spec's false/empty) and leaves the handle collection unchanged. -/
theorem C5_detach_idempotent (st : FreeDraw) (pid : Nat)
    (h : ∃ e ∈ st.edges, e.polygonId = pid) :
    removedHandles st pid ≠ [] ∧
    (∀ e ∈ (destroyPolygon st pid).edges, e.polygonId ≠ pid) ∧
    removedHandles (destroyPolygon st pid) pid = [] ∧
    (destroyPolygon (destroyPolygon st pid) pid).edges = (destroyPolygon st pid).edges := by
  obtain ⟨e, he, hpe⟩ := h
  refine ⟨?_, ?_, ?_, ?_⟩
  · exact List.ne_nil_of_mem (List.mem_filter.mpr ⟨he, by simp [hpe]⟩)
  · intro e' he'
    rw [destroyPolygon_edges] at he'
    simpa using (List.mem_filter.mp he').2
  · rw [removedHandles, destroyPolygon_edges]
    rw [List.filter_eq_nil_iff]
    intro a ha
    simpa using (List.mem_filter.mp ha).2
  · rw [destroyPolygon_edges, destroyPolygon_edges, List.filter_filter]
    exact List.filter_congr (fun a _ => by by_cases hq : a.polygonId = pid <;> simp [hq])

/-- Witness for C5 at a concrete two-handle shape. -/
theorem C5_detach_idempotent_witness :
    (∃ e ∈ ({ edges := [⟨1, 0, ⟨0, 0⟩⟩, ⟨1, 1, ⟨2, 2⟩⟩] } : FreeDraw).edges, e.polygonId = 1) ∧
    (removedHandles ({ edges := [⟨1, 0, ⟨0, 0⟩⟩, ⟨1, 1, ⟨2, 2⟩⟩] } : FreeDraw) 1 ≠ [] ∧
      (∀ e ∈ (destroyPolygon ({ edges := [⟨1, 0, ⟨0, 0⟩⟩, ⟨1, 1, ⟨2, 2⟩⟩] } : FreeDraw) 1).edges,
          e.polygonId ≠ 1) ∧
      removedHandles (destroyPolygon ({ edges := [⟨1, 0, ⟨0, 0⟩⟩, ⟨1, 1, ⟨2, 2⟩⟩] } : FreeDraw) 1) 1
          = [] ∧
      (destroyPolygon
          (destroyPolygon ({ edges := [⟨1, 0, ⟨0, 0⟩⟩, ⟨1, 1, ⟨2, 2⟩⟩] } : FreeDraw) 1) 1).edges
        = (destroyPolygon ({ edges := [⟨1, 0, ⟨0, 0⟩⟩, ⟨1, 1, ⟨2, 2⟩⟩] } : FreeDraw) 1).edges) :=
  ⟨⟨⟨1, 0, ⟨0, 0⟩⟩, by decide, rfl⟩, C5_detach_idempotent _ 1 ⟨⟨1, 0, ⟨0, 0⟩⟩, by decide, rfl⟩⟩

/-- The log written by one `destroyPolygon` call. -/
theorem destroyPolygon_log (st : FreeDraw) (pid : Nat) :
    (destroyPolygon st pid).log
      = st.log ++ [Event.destroyCall pid,
          Event.notify (groupEdges (st.edges.filter (fun e => e.polygonId ≠ pid)))] := by
  simp [destroyPolygon, notifyBoundaries]

/-- `countNotify` distributes over appended logs. -/
theorem countNotify_append (l1 l2 : List Event) :
    countNotify (l1 ++ l2) = countNotify l1 + countNotify l2 := by
  simp [countNotify, List.filter_append]

/-- `countDestroy` distributes over appended logs. -/
theorem countDestroy_append (l1 l2 : List Event) :
    countDestroy (l1 ++ l2) = countDestroy l1 + countDestroy l2 := by
  simp [countDestroy, List.filter_append]

/-- `countDestroyOf` distributes over appended logs. -/
theorem countDestroyOf_append (pid : Nat) (l1 l2 : List Event) :
    countDestroyOf pid (l1 ++ l2) = countDestroyOf pid l1 + countDestroyOf pid l2 := by
  simp [countDestroyOf, List.filter_append]

/-- Effect of the `forEach` loop of `clearPolygons` on the log counts and the
edge collection, for an arbitrary snapshot list `L`. -/
theorem clearLoop_spec (L : List Edge) (s : FreeDraw) :
    countDestroy ((L.foldl (fun s e => destroyPolygon s e.polygonId) s).log)
        = countDestroy s.log + L.length ∧
    countNotify ((L.foldl (fun s e => destroyPolygon s e.polygonId) s).log)
        = countNotify s.log + L.length ∧
    ((L.foldl (fun s e => destroyPolygon s e.polygonId) s).edges
        = s.edges.filter (fun e => e.polygonId ∉ L.map Edge.polygonId)) ∧
    (∀ q, countDestroyOf q ((L.foldl (fun s e => destroyPolygon s e.polygonId) s).log)
        = countDestroyOf q s.log + (L.map Edge.polygonId).count q) := by
  induction L generalizing s with
  | nil =>
    refine ⟨by simp, by simp, ?_, by simp⟩
    simp
  | cons a L ih =>
    obtain ⟨ihD, ihN, ihE, ihQ⟩ := ih (destroyPolygon s a.polygonId)
    rw [List.foldl_cons]
    refine ⟨?_, ?_, ?_, ?_⟩
    · rw [ihD, destroyPolygon_log, countDestroy_append]
      simp [countDestroy]
      omega
    · rw [ihN, destroyPolygon_log, countNotify_append]
      simp [countNotify]
      omega
    · rw [ihE, destroyPolygon_edges, List.filter_filter]
      refine List.filter_congr (fun e _ => ?_)
      by_cases h1 : e.polygonId = a.polygonId <;>
        by_cases h2 : e.polygonId ∈ L.map Edge.polygonId <;> simp [h1, h2]
    · intro q
      rw [ihQ q, destroyPolygon_log, countDestroyOf_append]
      by_cases hq : q = a.polygonId
      · simp [countDestroyOf, hq, List.count_cons]
        omega
      · simp [countDestroyOf, hq, List.count_cons, Ne.symm hq]

/-- A state tracking one polygon (id 1) with its three edge handles, as left
behind by creating one triangle. -/
def oneTriangleState : FreeDraw :=
  { edges := [⟨1, 0, ⟨0, 0⟩⟩, ⟨1, 1, ⟨0, 4⟩⟩, ⟨1, 2, ⟨4, 4⟩⟩],
    polygons := [⟨1, [⟨0, 0⟩, ⟨0, 4⟩, ⟨4, 4⟩, ⟨0, 0⟩]⟩] }

/-- C4 counterexample: on a state tracking one shape with three handles,
`clearPolygons` invokes `destroyPolygon` on that (single) shape three times,
once per handle of the entry snapshot, and the boundary notification fires
four times - not once each / once at the end as the claim states. -/
theorem C4_counterexample :
    countDestroyOf 1 (clearPolygons oneTriangleState).log = 3 ∧
    countNotify (clearPolygons oneTriangleState).log = 4 ∧
    ¬(countDestroyOf 1 (clearPolygons oneTriangleState).log = 1) ∧
    ¬(countNotify (clearPolygons oneTriangleState).log = 1) := by
  decide

/-- C4 amended: `clearPolygons` invokes `destroyPolygon` once per handle
present at entry - so each tracked shape is destroyed as many times as it has
handles (its handles are all removed by the first such call, the later calls
remove nothing) - and the boundary notification fires once per `destroyPolygon`
call plus once at the end, i.e. handle-count + 1 times; afterwards the handle
collection is empty. -/
theorem C4_clear_all_per_edge (st : FreeDraw) :
    countDestroy (clearPolygons st).log = countDestroy st.log + st.edges.length ∧
    countNotify (clearPolygons st).log = countNotify st.log + st.edges.length + 1 ∧
    (∀ q, countDestroyOf q (clearPolygons st).log
        = countDestroyOf q st.log + (st.edges.map Edge.polygonId).count q) ∧
    (clearPolygons st).edges = [] := by
  obtain ⟨hD, hN, hE, hQ⟩ := clearLoop_spec st.edges st
  refine ⟨?_, ?_, ?_, ?_⟩
  · simpa [clearPolygons, notifyBoundaries, countNotify_append, countDestroy_append,
      countDestroy] using hD
  · simp only [clearPolygons, notifyBoundaries, countNotify_append]
    rw [hN]
    simp [countNotify]
  · intro q
    simp only [clearPolygons, notifyBoundaries, countDestroyOf_append]
    rw [hQ q]
    simp [countDestroyOf]
  · simp only [clearPolygons, notifyBoundaries]
    rw [hE, List.filter_eq_nil_iff]
    intro e he
    simp [List.mem_map]
    exact ⟨e, he, rfl⟩

/-- Every edge built by `attachIdx` carries the given polygon id. -/
theorem attachIdx_polygonId (pid : Nat) (ps : List LatLng) :
    ∀ n, ∀ e ∈ attachIdx pid n ps, e.polygonId = pid := by
  induction ps with
  | nil => intro n e he; simp [attachIdx] at he
  | cons p ps ih =>
    intro n e he
    simp only [attachIdx, List.mem_cons] at he
    rcases he with rfl | he
    · rfl
    · exact ih (n + 1) e he

/-- The geo positions of the edges built by `attachIdx` are the given points,
in order. -/
theorem attachIdx_map_latlng (pid : Nat) (ps : List LatLng) :
    ∀ n, (attachIdx pid n ps).map Edge.latlng = ps := by
  induction ps with
  | nil => intro n; rfl
  | cons p ps ih => intro n; simp [attachIdx, ih]

/-- While the walked edges keep the current polygon id, `notifyBoundaries`'
loop keeps extending the current bucket. -/
theorem groupEdgesGo_run (pid : Nat) (es : List Edge) (h : ∀ e ∈ es, e.polygonId = pid) :
    ∀ (run : List LatLng) (rest : List Edge),
    groupEdgesGo pid run (es ++ rest) = groupEdgesGo pid (run ++ es.map Edge.latlng) rest := by
  induction es with
  | nil => intro run rest; simp
  | cons e es ih =>
    intro run rest
    have hpid : e.polygonId = pid := h e (List.mem_cons_self e es)
    have ih' := ih (fun x hx => h x (List.mem_cons_of_mem e hx))
    simp [groupEdgesGo, hpid, ih']

/-- Walking a block-structured edge collection, with adjacent blocks owned by
distinct polygons, produces one bucket per block. -/
theorem groupEdgesGo_blocks (bs : List (Nat × List LatLng)) :
    ∀ (pid : Nat) (run : List LatLng), (∀ b ∈ bs, b.2 ≠ []) →
    List.Chain' (· ≠ ·) (pid :: bs.map Prod.fst) →
    groupEdgesGo pid run (blockEdges bs) = run :: bs.map Prod.snd := by
  induction bs with
  | nil => intro pid run _ _; simp [blockEdges, groupEdgesGo]
  | cons b bs ih =>
    intro pid run hne hch
    obtain ⟨q, ps⟩ := b
    obtain ⟨p, ps', rfl⟩ : ∃ p t, ps = p :: t := by
      cases hps : ps with
      | nil => exact absurd (hps ▸ hps) (by simpa [hps] using hne (q, ps) (List.mem_cons_self _ bs))
      | cons p t => exact ⟨p, t, rfl⟩
    have hqpid : ¬(q = pid) := by
      have := (List.chain'_cons.mp hch).1
      exact fun hqp => this hqp.symm
    have hch' : List.Chain' (· ≠ ·) (q :: bs.map Prod.fst) := (List.chain'_cons.mp hch).2
    have hrun := groupEdgesGo_run q (attachIdx q 1 ps')
      (fun e he => attachIdx_polygonId q ps' 1 e he)
    have hih := ih q (p :: ps') (fun x hx => hne x (List.mem_cons_of_mem _ hx)) hch'
    simp [blockEdges, attachIdx, groupEdgesGo, hqpid, hrun, attachIdx_map_latlng]
    simpa [blockEdges] using hih

/-- C2 amended: the groups passed to the markers callback are the maximal
consecutive runs of handles with equal owning-shape id, in encounter order,
with each handle's geo point in encounter order inside its run.  Hence for
every handle collection in which each shape's handles are contiguous and in
vertex order (as `attachEdges` produces them and `destroyPolygon` preserves
them) and adjacent blocks belong to distinct shapes, the groups are exactly
one per shape, in encounter order, with points in vertex-index order. -/
theorem C2_grouping_contiguous (st : FreeDraw) (bs : List (Nat × List LatLng))
    (hedges : st.edges = blockEdges bs)
    (hne : ∀ b ∈ bs, b.2 ≠ [])
    (hch : List.Chain' (· ≠ ·) (bs.map Prod.fst)) :
    (notifyBoundaries st).log = st.log ++ [Event.notify (bs.map Prod.snd)] := by
  have hg : groupEdges (blockEdges bs) = bs.map Prod.snd := by
    cases bs with
    | nil => rfl
    | cons b bs' =>
      obtain ⟨q, ps⟩ := b
      obtain ⟨p, ps', rfl⟩ : ∃ p t, ps = p :: t := by
        cases hps : ps with
        | nil =>
          exact absurd (hps ▸ hps) (by simpa [hps] using hne (q, ps) (List.mem_cons_self _ bs'))
        | cons p t => exact ⟨p, t, rfl⟩
      have hch' : List.Chain' (· ≠ ·) (q :: bs'.map Prod.fst) := by simpa using hch
      have hrun := groupEdgesGo_run q (attachIdx q 1 ps')
        (fun e he => attachIdx_polygonId q ps' 1 e he)
      have hb := groupEdgesGo_blocks bs' q (p :: ps')
        (fun x hx => hne x (List.mem_cons_of_mem _ hx)) hch'
      simp [blockEdges, attachIdx, groupEdges, groupEdgesGo, hrun, attachIdx_map_latlng]
      simpa [blockEdges] using hb
  simp [notifyBoundaries, hedges, hg]

/-- Witness for the amended C2 at a concrete two-shape collection. -/
theorem C2_grouping_contiguous_witness :
    ({ edges := blockEdges [(1, [⟨0, 0⟩, ⟨0, 4⟩]), (2, [⟨9, 9⟩])] } : FreeDraw).edges
        = blockEdges [(1, [⟨0, 0⟩, ⟨0, 4⟩]), (2, [⟨9, 9⟩])] ∧
    (∀ b ∈ [(1, [⟨0, 0⟩, ⟨0, 4⟩]), (2, [(⟨9, 9⟩ : LatLng)])], b.2 ≠ []) ∧
    List.Chain' (· ≠ ·) ([(1, [⟨0, 0⟩, ⟨0, 4⟩]), (2, [(⟨9, 9⟩ : LatLng)])].map Prod.fst) ∧
    (notifyBoundaries ({ edges := blockEdges [(1, [⟨0, 0⟩, ⟨0, 4⟩]), (2, [⟨9, 9⟩])] } : FreeDraw)).log
      = ({ edges := blockEdges [(1, [⟨0, 0⟩, ⟨0, 4⟩]), (2, [⟨9, 9⟩])] } : FreeDraw).log
        ++ [Event.notify ([(1, [⟨0, 0⟩, ⟨0, 4⟩]), (2, [(⟨9, 9⟩ : LatLng)])].map Prod.snd)] :=
  ⟨rfl, by decide, by simp,
    C2_grouping_contiguous _ [(1, [⟨0, 0⟩, ⟨0, 4⟩]), (2, [⟨9, 9⟩])] rfl (by decide) (by simp)⟩

/-- C2 counterexample: on a handle collection whose encounter order is not
contiguous by shape - which the claim explicitly ranges over - the loop of
`notifyBoundaries` opens a new group at every id change, so the same shape id
yields several groups and the groups are not the distinct owning-shape
identifiers (3 groups for 2 distinct ids). -/
theorem C2_counterexample :
    groupEdges [⟨1, 0, ⟨0, 0⟩⟩, ⟨2, 0, ⟨1, 1⟩⟩, ⟨1, 1, ⟨2, 2⟩⟩]
        = [[⟨0, 0⟩], [⟨1, 1⟩], [⟨2, 2⟩]] ∧
    ([⟨1, 0, ⟨0, 0⟩⟩, ⟨2, 0, ⟨1, 1⟩⟩, ⟨1, 1, ⟨2, 2⟩⟩] : List Edge).map Edge.polygonId = [1, 2, 1] ∧
    ¬((groupEdges [⟨1, 0, ⟨0, 0⟩⟩, ⟨2, 0, ⟨1, 1⟩⟩, ⟨1, 1, ⟨2, 2⟩⟩]).length
        = (([1, 2, 1] : List Nat).dedup).length) := by
  decide

/-- The four mode indicator classes handled by `setMode`. -/
def modeClassNames : List String :=
  ["mode-create", "mode-edit", "mode-delete", "mode-view"]

/-- The four `classList.remove` calls of `defineClasses` amount to filtering
the indicator classes out of the container's class list. -/
theorem removes_eq_filter (l : List String) :
    classListRemove (classListRemove (classListRemove (classListRemove
        l "mode-create") "mode-edit") "mode-delete") "mode-view"
      = l.filter (fun c => c ∉ modeClassNames) := by
  simp only [classListRemove, List.filter_filter]
  refine List.filter_congr (fun c _ => ?_)
  rw [Bool.eq_iff_iff]
  simp only [Bool.and_eq_true, decide_eq_true_eq, modeClassNames, List.mem_cons,
    List.not_mem_nil, not_or, or_false]
  tauto

/-- A class that is one of the indicator classes is absent from the filtered
base list. -/
theorem not_mem_base (l : List String) (c : String) (hc : c ∈ modeClassNames) :
    c ∉ l.filter (fun x => x ∉ modeClassNames) := by
  intro h
  exact (of_decide_eq_true (List.mem_filter.mp h).2) hc

/-- `defineClasses` replaces all previous indicator classes with exactly the
indicator classes of the bits set in the mode, in the source's add order. -/
theorem defineClasses_eq (m : Nat) (l : List String) :
    defineClasses m l
      = l.filter (fun c => c ∉ modeClassNames)
        ++ (if m &&& MODES_CREATE ≠ 0 then ["mode-create"] else [])
        ++ (if m &&& MODES_EDIT ≠ 0 then ["mode-edit"] else [])
        ++ (if m &&& MODES_DELETE ≠ 0 then ["mode-delete"] else [])
        ++ (if m &&& MODES_VIEW ≠ 0 then ["mode-view"] else []) := by
  have hnc := not_mem_base l "mode-create" (by simp [modeClassNames])
  have hne := not_mem_base l "mode-edit" (by simp [modeClassNames])
  have hnd := not_mem_base l "mode-delete" (by simp [modeClassNames])
  have hnv := not_mem_base l "mode-view" (by simp [modeClassNames])
  have s1 : ("mode-edit" : String) ≠ "mode-create" := by decide
  have s2 : ("mode-delete" : String) ≠ "mode-create" := by decide
  have s3 : ("mode-delete" : String) ≠ "mode-edit" := by decide
  have s4 : ("mode-view" : String) ≠ "mode-create" := by decide
  have s5 : ("mode-view" : String) ≠ "mode-edit" := by decide
  have s6 : ("mode-view" : String) ≠ "mode-delete" := by decide
  simp only [defineClasses, removes_eq_filter]
  by_cases h1 : m &&& MODES_CREATE ≠ 0 <;>
    by_cases h2 : m &&& MODES_EDIT ≠ 0 <;>
    by_cases h3 : m &&& MODES_DELETE ≠ 0 <;>
    by_cases h4 : m &&& MODES_VIEW ≠ 0 <;>
    simp [h1, h2, h3, h4, classListAdd, List.mem_append, modeClassNames,
      hnc, hne, hnd, hnv, s1, s2, s3, s4, s5, s6]

/-- The effect of `setMode` on the class list and the four input permissions,
when a map is attached. -/
theorem setMode_effect (st : FreeDraw) (m : Nat) (h : st.hasMap = true) :
    (setMode st m).mapClasses = defineClasses m st.mapClasses ∧
    (setMode st m).dragging = !(m &&& MODES_CREATE != 0) ∧
    (setMode st m).touchZoom = !(m &&& MODES_CREATE != 0) ∧
    (setMode st m).doubleClickZoom = !(m &&& MODES_CREATE != 0) ∧
    (setMode st m).scrollWheelZoom = !(m &&& MODES_CREATE != 0) := by
  simp only [setMode, h]
  split
  · rename_i hfalse
    exact absurd hfalse (by simp)
  · split <;> exact ⟨rfl, rfl, rfl, rfl, rfl⟩

/-- C3: after `setMode m` on an editor attached to a map, the container's
class list is its previous classes minus all four indicator classes, followed
by exactly the indicator classes of the bits set in `m` - so the indicators
present are exactly those of `m`, all previous indicators having been
replaced - and each of the four input permissions (drag, pinch-zoom,
double-click-zoom, scroll-zoom) is enabled exactly when the CREATE bit is
absent from `m`, i.e. disabled iff CREATE is set. -/
theorem C3_setMode_classes_permissions (st : FreeDraw) (m : Nat) (h : st.hasMap = true) :
    (setMode st m).mapClasses
      = st.mapClasses.filter (fun c => c ∉ modeClassNames)
        ++ (if m &&& MODES_CREATE ≠ 0 then ["mode-create"] else [])
        ++ (if m &&& MODES_EDIT ≠ 0 then ["mode-edit"] else [])
        ++ (if m &&& MODES_DELETE ≠ 0 then ["mode-delete"] else [])
        ++ (if m &&& MODES_VIEW ≠ 0 then ["mode-view"] else []) ∧
    (setMode st m).dragging = (m &&& MODES_CREATE == 0) ∧
    (setMode st m).touchZoom = (m &&& MODES_CREATE == 0) ∧
    (setMode st m).doubleClickZoom = (m &&& MODES_CREATE == 0) ∧
    (setMode st m).scrollWheelZoom = (m &&& MODES_CREATE == 0) := by
  obtain ⟨hc, hd, ht, hz, hs⟩ := setMode_effect st m h
  have hb : (!(m &&& MODES_CREATE != 0)) = (m &&& MODES_CREATE == 0) := by
    simp [bne]
  rw [hc, defineClasses_eq, hd, ht, hz, hs, hb]
  exact ⟨rfl, rfl, rfl, rfl, rfl⟩

/-- An editor attached to a map whose container already carries a foreign
class and a stale indicator class. -/
def exMapState : FreeDraw :=
  { hasMap := true, mapClasses := ["leaflet-container", "mode-edit"] }

/-- Witness for C3 at mode 5 = VIEW + EDIT. -/
theorem C3_setMode_classes_permissions_witness :
    exMapState.hasMap = true ∧
    ((setMode exMapState 5).mapClasses
        = exMapState.mapClasses.filter (fun c => c ∉ modeClassNames)
          ++ (if 5 &&& MODES_CREATE ≠ 0 then ["mode-create"] else [])
          ++ (if 5 &&& MODES_EDIT ≠ 0 then ["mode-edit"] else [])
          ++ (if 5 &&& MODES_DELETE ≠ 0 then ["mode-delete"] else [])
          ++ (if 5 &&& MODES_VIEW ≠ 0 then ["mode-view"] else []) ∧
      (setMode exMapState 5).dragging = (5 &&& MODES_CREATE == 0) ∧
      (setMode exMapState 5).touchZoom = (5 &&& MODES_CREATE == 0) ∧
      (setMode exMapState 5).doubleClickZoom = (5 &&& MODES_CREATE == 0) ∧
      (setMode exMapState 5).scrollWheelZoom = (5 &&& MODES_CREATE == 0)) :=
  ⟨rfl, C3_setMode_classes_permissions exMapState 5 rfl⟩

/-- The plotting loop throws exactly when some entry is not an `L.LatLng`. -/
theorem addMarkersLoop_isSome (ms : List MarkerArg) :
    ∀ layer, ((addMarkersLoop layer ms).2.isSome = true)
      ↔ (∃ m ∈ ms, m.isLatLng = false) := by
  induction ms with
  | nil => intro layer; simp [addMarkersLoop]
  | cons a ms ih =>
    intro layer
    cases a with
    | latLng p => simp [addMarkersLoop, ih, MarkerArg.isLatLng]
    | notLatLng t => simp [addMarkersLoop, MarkerArg.isLatLng]

/-- `setMarkersReset` throws exactly when the marker list is present and has
a non-`L.LatLng` entry. -/
theorem setMarkersReset_isSome (st : FreeDraw) (markers : Option (List MarkerArg)) :
    ((setMarkersReset st markers).2.isSome = true)
      ↔ (∃ ms, markers = some ms ∧ ∃ m ∈ ms, m.isLatLng = false) := by
  cases markers with
  | none => simp [setMarkersReset]
  | some ms =>
    by_cases he : ms.isEmpty = true
    · rw [List.isEmpty_iff] at he
      subst he
      simp [setMarkersReset]
    · simp [setMarkersReset, he, addMarkersLoop_isSome]

/-- C7: `setMarkers` throws - synchronously, as the exception is the returned
error of the call itself, and totally, leaving a well-defined editor state -
if and only if either a second argument is supplied that is not an
`L.DivIcon`, or the (non-empty) marker list has an entry that is not an
`L.LatLng`. -/
theorem C7_setMarkers_error_iff (st : FreeDraw) (markers : Option (List MarkerArg))
    (divIcon : Option IconArg) :
    ((setMarkers st markers divIcon).2.isSome = true)
      ↔ ((∃ i, divIcon = some i ∧ i.isDivIcon = false) ∨
         (∃ ms, markers = some ms ∧ ∃ m ∈ ms, m.isLatLng = false)) := by
  cases divIcon with
  | none => simp [setMarkers, setMarkersReset_isSome]
  | some i =>
    cases hi : i.isDivIcon with
    | true => simp [setMarkers, hi, setMarkersReset_isSome]
    | false => simp [setMarkers, hi]

/-- C9: dragging the handle with key `(pid, idx)` to a new screen position
changes exactly that handle's stored geo point (every other handle keeps its
value), rebuilds the owning polygon's whole point list from all of its
handles' current positions in their order in the collection, leaves the other
polygons untouched, and triggers exactly one redraw, of the whole owning
shape. -/
theorem C9_vertex_drag (proj : Int → Int → LatLng) (st : FreeDraw) (pid idx : Nat)
    (x y : Int) (e0 : Edge) (he : e0 ∈ st.edges)
    (h1 : e0.polygonId = pid) (h2 : e0.index = idx) :
    ({ e0 with latlng := proj x y } ∈ (updatePolygonEdge proj st pid idx x y).edges) ∧
    (∀ e ∈ st.edges, ¬(e.polygonId = pid ∧ e.index = idx)
        → e ∈ (updatePolygonEdge proj st pid idx x y).edges) ∧
    (∀ p ∈ (updatePolygonEdge proj st pid idx x y).polygons, p.id = pid
        → p.latlngs = ((updatePolygonEdge proj st pid idx x y).edges.filter
            (fun e => e.polygonId = pid)).map Edge.latlng) ∧
    (∀ p ∈ st.polygons, p.id ≠ pid → p ∈ (updatePolygonEdge proj st pid idx x y).polygons) ∧
    ((updatePolygonEdge proj st pid idx x y).log = st.log ++ [Event.redraw pid]) := by
  refine ⟨?_, ?_, ?_, ?_, rfl⟩
  · have hf : (fun e => if e.polygonId = pid ∧ e.index = idx
        then { e with latlng := proj x y } else e) e0 = { e0 with latlng := proj x y } := by
      simp [h1, h2]
    exact hf ▸ List.mem_map_of_mem _ he
  · intro e he' hne
    have hf : (fun e => if e.polygonId = pid ∧ e.index = idx
        then { e with latlng := proj x y } else e) e = e := if_neg hne
    exact hf ▸ List.mem_map_of_mem _ he'
  · intro p hp hpid
    simp only [updatePolygonEdge] at hp
    obtain ⟨q, hq, rfl⟩ := List.mem_map.mp hp
    by_cases hqid : q.id = pid
    · simp [updatePolygonEdge, hqid]
    · simp only [if_neg hqid] at hpid ⊢
      exact absurd hpid hqid
  · intro p hp hne
    have hf : (fun q => if q.id = pid
        then { q with latlngs := ((st.edges.map (fun e =>
          if e.polygonId = pid ∧ e.index = idx then { e with latlng := proj x y } else e)).filter
            (fun e => e.polygonId = pid)).map Edge.latlng } else q) p = p := if_neg hne
    exact hf ▸ List.mem_map_of_mem _ hp

/-- A state with one polygon of two vertices and its two handles. -/
def exDragState : FreeDraw :=
  { edges := [⟨1, 0, ⟨0, 0⟩⟩, ⟨1, 1, ⟨2, 2⟩⟩],
    polygons := [⟨1, [⟨0, 0⟩, ⟨2, 2⟩]⟩] }

/-- Witness for C9: dragging the second handle of a two-vertex shape. -/
theorem C9_vertex_drag_witness :
    ((⟨1, 1, ⟨2, 2⟩⟩ : Edge) ∈ exDragState.edges) ∧
    (⟨1, 1, ⟨2, 2⟩⟩ : Edge).polygonId = 1 ∧
    (⟨1, 1, ⟨2, 2⟩⟩ : Edge).index = 1 ∧
    (({ (⟨1, 1, ⟨2, 2⟩⟩ : Edge) with latlng := (fun a b => (⟨a, b⟩ : LatLng)) 5 6 }
        ∈ (updatePolygonEdge (fun a b => ⟨a, b⟩) exDragState 1 1 5 6).edges) ∧
      (∀ e ∈ exDragState.edges, ¬(e.polygonId = 1 ∧ e.index = 1)
          → e ∈ (updatePolygonEdge (fun a b => ⟨a, b⟩) exDragState 1 1 5 6).edges) ∧
      (∀ p ∈ (updatePolygonEdge (fun a b => ⟨a, b⟩) exDragState 1 1 5 6).polygons, p.id = 1
          → p.latlngs = ((updatePolygonEdge (fun a b => ⟨a, b⟩) exDragState 1 1 5 6).edges.filter
              (fun e => e.polygonId = 1)).map Edge.latlng) ∧
      (∀ p ∈ exDragState.polygons, p.id ≠ 1
          → p ∈ (updatePolygonEdge (fun a b => ⟨a, b⟩) exDragState 1 1 5 6).polygons) ∧
      ((updatePolygonEdge (fun a b => ⟨a, b⟩) exDragState 1 1 5 6).log
          = exDragState.log ++ [Event.redraw 1])) :=
  ⟨by decide, rfl, rfl,
    C9_vertex_drag (fun a b => ⟨a, b⟩) exDragState 1 1 5 6 ⟨1, 1, ⟨2, 2⟩⟩ (by decide) rfl rfl⟩

/-- The plotting loop on a list whose first invalid entry follows a prefix of
valid geo points adds exactly that prefix and then throws. -/
theorem addMarkersLoop_partial (tag : Nat) (rest : List MarkerArg) (pre : List LatLng) :
    ∀ layer, addMarkersLoop layer (pre.map MarkerArg.latLng ++ MarkerArg.notLatLng tag :: rest)
      = (layer ++ pre, some "Supplied markers must be instances of L.LatLng") := by
  induction pre with
  | nil => intro layer; simp [addMarkersLoop]
  | cons p pre ih => intro layer; simp [addMarkersLoop, ih]

/-- C10: when `setMarkers` is called with a valid (or absent) icon and a
marker list whose entries are valid up to the first invalid one, the error is
raised only after the previous marker layer has been discarded and the valid
prefix has been plotted: the state returned with the error carries exactly
the prefix in a fresh marker layer, whatever the previous layer contained. -/
theorem C10_setMarkers_partial_state (st : FreeDraw) (divIcon : Option IconArg)
    (hicon : Option.all IconArg.isDivIcon divIcon = true)
    (pre : List LatLng) (tag : Nat) (rest : List MarkerArg) :
    setMarkers st (some (pre.map MarkerArg.latLng ++ MarkerArg.notLatLng tag :: rest)) divIcon
      = ({ st with markerLayer := pre },
         some "Supplied markers must be instances of L.LatLng") := by
  have hbody : setMarkersReset st
      (some (pre.map MarkerArg.latLng ++ MarkerArg.notLatLng tag :: rest))
      = ({ st with markerLayer := pre },
         some "Supplied markers must be instances of L.LatLng") := by
    have hne : (pre.map MarkerArg.latLng ++ MarkerArg.notLatLng tag :: rest).isEmpty = false := by
      cases pre <;> simp [List.isEmpty]
    simp [setMarkersReset, hne, addMarkersLoop_partial]
  cases divIcon with
  | none => simpa [setMarkers] using hbody
  | some i =>
    have hi : i.isDivIcon = true := by simpa [Option.all] using hicon
    simpa [setMarkers, hi] using hbody

/-- Witness for C10: one valid point, then an invalid entry, on an editor
whose marker layer holds a stale point. -/
theorem C10_setMarkers_partial_state_witness :
    Option.all IconArg.isDivIcon (none : Option IconArg) = true ∧
    setMarkers ({ markerLayer := [⟨7, 7⟩] } : FreeDraw)
        (some ([(⟨3, 4⟩ : LatLng)].map MarkerArg.latLng ++ MarkerArg.notLatLng 0 :: []))
        none
      = ({ ({ markerLayer := [⟨7, 7⟩] } : FreeDraw) with markerLayer := [⟨3, 4⟩] },
         some "Supplied markers must be instances of L.LatLng") :=
  ⟨rfl, C10_setMarkers_partial_state ({ markerLayer := [⟨7, 7⟩] } : FreeDraw)
    none rfl [⟨3, 4⟩] 0 []⟩

end FD
